import Mathlib

/-!
Verification of the Training Progression & Analytics Engine (HOBH).

Shallow embedding of the core computational modules:
  * `utils/data_manager.py`   — difficulty progression state machine
  * `utils/gamification.py`   — XP formula and level table
  * `utils/prediction.py`     — PR forecaster
  * `utils/recovery_calculator.py` — strain / recovery scorers
  * `utils/achievement_manager.py` — idempotent achievement awarding

Modelling conventions: Python floats are modelled as `ℚ` (the arithmetic in
the source stays in ranges where IEEE doubles are exact for every constant
that matters, notably the level table, see `xpRequired`); calendar dates are
day numbers (`ℤ` for the `Date` column, `ℚ` for `datetime` query parameters,
so an hour is 1/24); Python `round` (banker's rounding) is `pyround`;
Python `int()` truncation is `pytrunc`; SQL result sets are Lean lists.
-/

/-- The four difficulty tiers, in the declaration order of the Python
`DifficultyLevel(str, enum.Enum)` (models.py). -/
inductive DifficultyLevel where
  | BEGINNER
  | INTERMEDIATE
  | ADVANCED
  | ELITE
deriving DecidableEq, Repr

/-- `list(DifficultyLevel)` — the tier list in enum declaration order. -/
def difficultyList : List DifficultyLevel :=
  [.BEGINNER, .INTERMEDIATE, .ADVANCED, .ELITE]

/-- `list(DifficultyLevel).index(d)` — position of a tier in the list. -/
def dlIndex : DifficultyLevel → ℕ
  | .BEGINNER => 0
  | .INTERMEDIATE => 1
  | .ADVANCED => 2
  | .ELITE => 3

/-- `DataManager._update_movement_progression` (data_manager.py 214-237).
`session_history` is the movement's workout logs ordered by date descending,
as `completed_successfully` flags; the query takes the most recent
`progression_threshold` of them (`limit`).  Promotion uses list-index + 1,
demotion list-index - 1, exactly as the source's index arithmetic. -/
def updateMovementProgression (session_history : List Bool) (threshold : ℕ)
    (current : DifficultyLevel) : DifficultyLevel :=
  let recent_logs := session_history.take threshold
  if threshold ≤ recent_logs.length then
    let successful_sessions := (recent_logs.filter id).length
    if successful_sessions = threshold then
      if current ≠ DifficultyLevel.ELITE then
        difficultyList.getD (dlIndex current + 1) current
      else current
    else if successful_sessions < threshold / 2 then
      if current ≠ DifficultyLevel.BEGINNER then
        difficultyList.getD (dlIndex current - 1) current
      else current
    else current
  else current

/-- Python `int()` applied to a real value: truncation towards zero. -/
def pytrunc (q : ℚ) : ℤ :=
  if 0 ≤ q then ⌊q⌋ else ⌈q⌉

/-- Python `round()` applied to a real value: round half to even. -/
def pyround (q : ℚ) : ℤ :=
  let f := ⌊q⌋
  let r := q - (f : ℚ)
  if r < 1/2 then f
  else if 1/2 < r then f + 1
  else if f % 2 = 0 then f else f + 1

/-- `GamificationManager.xp_multipliers` (gamification.py 38-43); the
`dict.get(..., 1.0)` default can never fire on a value of the enum type. -/
def xpMultiplier : DifficultyLevel → ℚ
  | .BEGINNER => 1
  | .INTERMEDIATE => 3/2
  | .ADVANCED => 2
  | .ELITE => 3

/-- `GamificationManager.calculate_workout_xp` (gamification.py 77-95). -/
def calculate_workout_xp (difficulty : DifficultyLevel) (weight : ℚ)
    (reps : ℕ) (completed : Bool) : ℤ :=
  let base_xp : ℚ := 100
  let difficulty_multiplier := xpMultiplier difficulty
  let volume := weight * (reps : ℚ)
  let volume_bonus := min 100 (volume / 10)
  let success_bonus : ℚ := if completed then 50 else 0
  pytrunc ((base_xp + volume_bonus) * difficulty_multiplier + success_bonus)

/-- XP required for a level (gamification.py 56:
`int(base_xp * (1.5 ** (level - 1)))` with `base_xp = 1000`).
For levels 1..30 the double-precision product is exact
(`125 * 3^29 < 2^53`), so the float computation equals this exact
rational truncated to an integer, i.e. `1000 * 3^(L-1) / 2^(L-1)`
with floor division. -/
def xpRequired (level : ℕ) : ℕ :=
  1000 * 3 ^ (level - 1) / 2 ^ (level - 1)

/-- The level numbers of the static table, in insertion order
(`for level in range(1, 31)`). -/
def levelNumbers : List ℕ := List.range' 1 30

/-- The loop body of `get_current_level` (gamification.py 97-105):
walk the table in order, remember the last level whose requirement is met,
stop at the first one that is not. -/
def levelLoop (total_xp : ℕ) : List ℕ → ℕ → ℕ
  | [], current => current
  | l :: ls, current =>
    if xpRequired l ≤ total_xp then levelLoop total_xp ls l else current

/-- `GamificationManager.get_current_level` (gamification.py 97-105),
returning the level number of the returned `LevelInfo`. -/
def get_current_level (total_xp : ℕ) : ℕ :=
  levelLoop total_xp levelNumbers 1

/-- A row of the `earned_achievements` table (models.py 43-54).
`movement_name` is nullable; `date_earned` is an opaque timestamp. -/
structure EarnedAchievement where
  achievement_id : ℕ
  user_id : ℕ
  movement_name : Option String
  date_earned : ℚ
deriving DecidableEq, Repr

/-- The predicate matched by the `filter_by` of
`AchievementManager._award_achievement` (achievement_manager.py 122-127). -/
def matchesTriple (achievement_id user_id : ℕ) (movement_name : Option String)
    (e : EarnedAchievement) : Bool :=
  decide (e.achievement_id = achievement_id ∧ e.user_id = user_id ∧
    e.movement_name = movement_name)

/-- `AchievementManager._award_achievement` (achievement_manager.py 118-142):
insert a row unless one with the same
(achievement_id, user_id, movement_name) already exists. -/
def award_achievement (table : List EarnedAchievement)
    (achievement_id user_id : ℕ) (movement_name : Option String)
    (now : ℚ) : List EarnedAchievement :=
  let existing := table.filter (matchesTriple achievement_id user_id movement_name)
  if existing.isEmpty then
    table ++ [⟨achievement_id, user_id, movement_name, now⟩]
  else table

/-- A row of the `workout_logs` table as used by the recovery calculator;
`date` is the `Date` column as a day number. -/
structure WorkoutRecord where
  user_id : ℕ
  movement_id : ℕ
  date : ℤ
  weight : ℚ
  reps : ℕ
deriving DecidableEq, Repr

/-- The same-calendar-date query of `calculate_strain_score`
(recovery_calculator.py 33-36): `func.date(WorkoutLog.date) == date.date()`.
The `datetime` argument is a rational day number, so its `.date()` part is
`⌊now⌋`. -/
def dailyWorkouts (db : List WorkoutRecord) (user_id : ℕ) (now : ℚ) :
    List WorkoutRecord :=
  db.filter (fun w => decide (w.user_id = user_id ∧ w.date = ⌊now⌋))

/-- `RecoveryCalculator._calculate_volume_score` (127-130). -/
def calculate_volume_score (workouts : List WorkoutRecord) : ℚ :=
  ((workouts.map (fun w => w.weight * (w.reps : ℚ))).sum / 10000) * 10

/-- The per-movement PR lookup inside `_calculate_intensity_score`
(140-143): max weight of the same user and movement over the whole table,
`or workout.weight` when the result is missing or zero (Python falsiness). -/
def prWeightFor (db : List WorkoutRecord) (w : WorkoutRecord) : ℚ :=
  match db.filter (fun l =>
    decide (l.movement_id = w.movement_id ∧ l.user_id = w.user_id)) with
  | [] => w.weight
  | h :: t =>
    let m := t.foldl (fun a l => max a l.weight) h.weight
    if m = 0 then w.weight else m

/-- `relative_intensity = workout.weight / pr_weight if pr_weight else 1`
(recovery_calculator.py 146). -/
def relativeIntensity (db : List WorkoutRecord) (w : WorkoutRecord) : ℚ :=
  if prWeightFor db w = 0 then 1 else w.weight / prWeightFor db w

/-- `RecoveryCalculator._calculate_intensity_score` (132-149):
`np.mean` of the relative intensities, times 10. -/
def calculate_intensity_score (db workouts : List WorkoutRecord) : ℚ :=
  if workouts = [] then 0
  else ((workouts.map (relativeIntensity db)).sum / (workouts.length : ℚ)) * 10

/-- `RecoveryCalculator._calculate_frequency_score` (151-161). -/
def calculate_frequency_score (db : List WorkoutRecord) (user_id : ℕ)
    (now : ℚ) : ℚ :=
  let workout_count := (db.filter (fun w =>
    decide (w.user_id = user_id ∧ now - 7 ≤ (w.date : ℚ) ∧ (w.date : ℚ) ≤ now))).length
  min ((workout_count : ℚ) / 14 * 10) 10

/-- `RecoveryCalculator._get_strain_message` (194-203). -/
def strainMessage (score : ℚ) : String :=
  if score ≤ 3 then "Low training strain - You can increase intensity"
  else if score ≤ 6 then "Moderate training strain - Good training stimulus"
  else if score ≤ 8 then "High training strain - Monitor recovery closely"
  else "Very high training strain - Consider reducing load"

/-- The dict returned by `calculate_strain_score`. -/
structure StrainResult where
  strain_score : ℚ
  volume : ℚ
  intensity : ℚ
  frequency : ℚ
  message : String
deriving DecidableEq, Repr

/-- `RecoveryCalculator.calculate_strain_score` (17-78): weighted sum of
the three components, clamped to [1, 10] and rounded to one decimal; a day
with no events returns the sentinel score 0. -/
def calculate_strain_score (db : List WorkoutRecord) (user_id : ℕ)
    (now : ℚ) : StrainResult :=
  let daily_workouts := dailyWorkouts db user_id now
  if daily_workouts = [] then
    { strain_score := 0, volume := 0, intensity := 0, frequency := 0,
      message := "No training data for this date" }
  else
    let volume_score := calculate_volume_score daily_workouts
    let intensity_score := calculate_intensity_score db daily_workouts
    let frequency_score := calculate_frequency_score db user_id now
    let strain_score :=
      volume_score * (4/10) + intensity_score * (3/10) + frequency_score * (3/10)
    let rounded := (pyround ((min (max strain_score 1) 10) * 10) : ℚ) / 10
    { strain_score := rounded,
      volume := (pyround (volume_score * 100) : ℚ) / 100,
      intensity := (pyround (intensity_score * 100) : ℚ) / 100,
      frequency := (pyround (frequency_score * 100) : ℚ) / 100,
      message := strainMessage rounded }

/-- Insertion step for sorting workout records by descending date
(`order_by(WorkoutLog.date.desc())`). -/
def insertByDateDesc (w : WorkoutRecord) :
    List WorkoutRecord → List WorkoutRecord
  | [] => [w]
  | x :: xs =>
    if x.date ≤ w.date then w :: x :: xs else x :: insertByDateDesc w xs

/-- Sort workout records by descending date (insertion sort). -/
def sortByDateDesc : List WorkoutRecord → List WorkoutRecord
  | [] => []
  | x :: xs => insertByDateDesc x (sortByDateDesc xs)

/-- The 7-day strictly-prior window query of `calculate_recovery_score`
(recovery_calculator.py 96-100): events of the user with
`now - 7 ≤ date < now`, most recent first. -/
def recentWorkouts (db : List WorkoutRecord) (user_id : ℕ) (now : ℚ) :
    List WorkoutRecord :=
  sortByDateDesc (db.filter (fun w =>
    decide (w.user_id = user_id ∧ now - 7 ≤ (w.date : ℚ) ∧ (w.date : ℚ) < now)))

/-- The hours-elapsed mapping of `_calculate_time_score`
(recovery_calculator.py 163-172), as a function of
`hours_since_workout`. -/
def time_score_of_hours (hours_since_workout : ℚ) : ℚ :=
  if hours_since_workout < 24 then max 1 (hours_since_workout / 24 * 10)
  else if hours_since_workout < 48 then min 10 (hours_since_workout / 24 * 5)
  else 10

/-- `RecoveryCalculator._calculate_time_score` (163-172): elapsed time
between two day numbers converted to hours
(`total_seconds() / 3600`). -/
def calculate_time_score (last_workout_date current_date : ℚ) : ℚ :=
  time_score_of_hours ((current_date - last_workout_date) * 24)

/-- `RecoveryCalculator._calculate_cumulative_load_score` (174-192):
exponentially decayed loads relative to the most recent entry's date. -/
def calculate_cumulative_load_score
    (recent_workouts : List WorkoutRecord) : ℚ :=
  match recent_workouts with
  | [] => 10
  | r0 :: rest =>
    let today := r0.date
    let daily_loads := (r0 :: rest).map (fun w =>
      (w.weight * (w.reps : ℚ)) * (8/10) ^ (today - w.date).toNat)
    let total_load := daily_loads.sum
    max 1 (10 * (1 - min (total_load / (10000 * 3)) (9/10)))

/-- `RecoveryCalculator._get_recovery_message` (205-214). -/
def recoveryMessage (score : ℚ) : String :=
  if score ≤ 3 then "Poor recovery - Consider extra rest or light training"
  else if score ≤ 6 then "Moderate recovery - Proceed with caution"
  else if score ≤ 8 then "Good recovery - Ready for moderate training"
  else "Excellent recovery - Ready for intense training"

/-- The dict returned by `calculate_recovery_score`. -/
structure RecoveryResult where
  recovery_score : ℚ
  message : String
deriving DecidableEq, Repr

/-- `RecoveryCalculator.calculate_recovery_score` (80-125).  Dates are
modelled uniformly as rational day numbers; the non-empty branch spells
out the arithmetic of the source lines (the source mixes `datetime` and
`date` values there, which its own try/except would intercept at run
time — the claims below concern the empty-window branch and the
time-score component, which are unaffected). -/
def calculate_recovery_score (db : List WorkoutRecord) (user_id : ℕ)
    (now : ℚ) : RecoveryResult :=
  match recentWorkouts db user_id now with
  | [] =>
    { recovery_score := 10,
      message := "Fully recovered - No recent training load" }
  | r0 :: rest =>
    let time_score := calculate_time_score (r0.date : ℚ) now
    let load_score := calculate_cumulative_load_score (r0 :: rest)
    let recovery_score := time_score * (6/10) + load_score * (4/10)
    let rounded := (pyround ((min (max recovery_score 1) 10) * 10) : ℚ) / 10
    { recovery_score := rounded, message := recoveryMessage rounded }

/-- A row of the movement-history frame handed to `PRPredictor`
(data_manager.get_movement_history): date (day number), weight, reps,
completed flag. -/
structure HistoryRow where
  date : ℤ
  weight : ℚ
  reps : ℕ
  completed : Bool
deriving DecidableEq, Repr

/-- `PRPredictor.min_data_points` (prediction.py 12). -/
def min_data_points : ℕ := 5

/-- `PRPredictor.prediction_days` (prediction.py 13). -/
def prediction_days : ℚ := 30

/-- `self.data['date'].min()` — first workout date. -/
def firstDate : List HistoryRow → ℤ
  | [] => 0
  | r :: rs => rs.foldl (fun a x => min a x.date) r.date

/-- `days_since_start` (prediction.py 22): each row's date minus the first
date, as the regression feature X. -/
def xs (data : List HistoryRow) : List ℚ :=
  data.map (fun r => ((r.date - firstDate data : ℤ) : ℚ))

/-- `self.data['weight'].values` — the regression target y. -/
def ys (data : List HistoryRow) : List ℚ :=
  data.map (fun r => r.weight)

/-- Maximum of a rational list (`pandas .max()`), 0 for an empty list
(never hit: callers guard on ≥ 5 rows). -/
def listMaxD : List ℚ → ℚ
  | [] => 0
  | h :: t => t.foldl max h

/-- `PRPredictor.prepare_data` (prediction.py 15-28): `(None, None)` below
the minimum sample size, otherwise (X, y).  (The `pr_data` group-by block
in those lines computes values that are never used.) -/
def prepare_data (data : List HistoryRow) : Option (List ℚ × List ℚ) :=
  if data.length < min_data_points then none
  else some (xs data, ys data)

/-- Mean of X (sklearn `LinearRegression` centres the data). -/
def xbar (data : List HistoryRow) : ℚ :=
  (xs data).sum / (data.length : ℚ)

/-- Mean of y. -/
def ybar (data : List HistoryRow) : ℚ :=
  (ys data).sum / (data.length : ℚ)

/-- Centred sum of squares of X. -/
def olsSxx (data : List HistoryRow) : ℚ :=
  ((xs data).map (fun v => (v - xbar data) ^ 2)).sum

/-- Centred cross sum of X and y. -/
def olsSxy (data : List HistoryRow) : ℚ :=
  (List.zipWith (fun a b => (a - xbar data) * (b - ybar data))
    (xs data) (ys data)).sum

/-- `model.coef_[0]` of `LinearRegression().fit(X, y)` (prediction.py
42-43, 54): the ordinary-least-squares slope Sxy/Sxx.  When every date is
equal (Sxx = 0) sklearn's least-squares solver returns the minimum-norm
coefficient 0, which coincides with ℚ's zero-division convention. -/
def olsSlope (data : List HistoryRow) : ℚ :=
  olsSxy data / olsSxx data

/-- `model.intercept_`: ȳ − slope·x̄. -/
def olsIntercept (data : List HistoryRow) : ℚ :=
  ybar data - olsSlope data * xbar data

/-- `confidence = r2_score(y, model.predict(X))` (prediction.py 46):
1 − SS_res/SS_tot. -/
def rSquared (data : List HistoryRow) : ℚ :=
  1 - (List.zipWith (fun a b => (b - (olsIntercept data + olsSlope data * a)) ^ 2)
        (xs data) (ys data)).sum /
      (((ys data).map (fun v => (v - ybar data) ^ 2)).sum)

/-- `last_day = X.max()` (prediction.py 49). -/
def lastDay (data : List HistoryRow) : ℚ :=
  listMaxD (xs data)

/-- `predicted_weight = model.predict([[last_day + 30]])[0]`
(prediction.py 50-51). -/
def predictedRaw (data : List HistoryRow) : ℚ :=
  olsIntercept data + olsSlope data * (lastDay data + prediction_days)

/-- `current_pr = self.data['weight'].max()` (prediction.py 57). -/
def maxWeight (data : List HistoryRow) : ℚ :=
  listMaxD (ys data)

/-- `max_realistic_improvement = 0.15` (prediction.py 60). -/
def maxRealisticImprovement : ℚ := 15/100

/-- `predicted_weight = min(predicted_weight, current_pr * 1.15)`
(prediction.py 61-62). -/
def predictedClamped (data : List HistoryRow) : ℚ :=
  min (predictedRaw data) (maxWeight data * (1 + maxRealisticImprovement))

/-- `predicted_weight = round(predicted_weight * 2) / 2` (prediction.py
65): rounding to the nearest 0.5 kg happens AFTER the 15% clamp. -/
def predictedRounded (data : List HistoryRow) : ℚ :=
  (pyround (predictedClamped data * 2) : ℚ) / 2

/-- The new-PR message of prediction.py 73-74; the rendering of the
numbers is not modelled bit-for-bit (no claim depends on it). -/
def newPRMessage (predicted_weight improvement : ℚ) : String :=
  "Based on your training pattern, you could achieve a new PR of " ++
    toString predicted_weight ++ "kg (+" ++ toString improvement ++
    "kg) within the next 30 days."

/-- The dict returned by `predict_pr`; the insufficient-data branch omits
`current_pr` and `improvement_rate`, hence the `Option` fields. -/
structure PRResult where
  current_pr : Option ℚ
  prediction : Option ℚ
  confidence : ℚ
  improvement_rate : Option ℚ
  message : String
deriving DecidableEq, Repr

/-- `PRPredictor.predict_pr` (prediction.py 30-82).  Note the returned
`'prediction'` key is `predicted_weight` in BOTH branches of line 68-74:
the `prediction = current_pr` assignment in the maintain branch is dead
(the dict never reads it), so the returned prediction is always the
rounded clamped value. -/
def predict_pr (data : List HistoryRow) : PRResult :=
  match prepare_data data with
  | none =>
    { current_pr := none, prediction := none, confidence := 0,
      improvement_rate := none,
      message := "Not enough data for prediction. Need at least 5 workouts." }
  | some (X, _) =>
    if X.length < min_data_points then
      { current_pr := none, prediction := none, confidence := 0,
        improvement_rate := none,
        message := "Not enough data for prediction. Need at least 5 workouts." }
    else
      let confidence := rSquared data
      let predicted_weight := predictedRounded data
      let rate_of_improvement := olsSlope data
      let current_pr := maxWeight data
      if predicted_weight ≤ current_pr then
        { current_pr := some current_pr, prediction := some predicted_weight,
          confidence := confidence,
          improvement_rate := some rate_of_improvement,
          message := "Maintain current training pattern to preserve your PR." }
      else
        { current_pr := some current_pr, prediction := some predicted_weight,
          confidence := confidence,
          improvement_rate := some rate_of_improvement,
          message := newPRMessage predicted_weight
            (predicted_weight - current_pr) }

/-- A concrete 5-point history: dates 0..4, weights rising from 60 kg to a
100.3 kg PR.  The OLS slope is steep (10.06 kg/day), so the 30-day
projection hits the 15% cap of 115.345, which then rounds UP to 115.5. -/
def predData : List HistoryRow :=
  [⟨0, 60, 5, true⟩, ⟨1, 70, 5, true⟩, ⟨2, 80, 5, true⟩,
   ⟨3, 90, 5, true⟩, ⟨4, 1003/10, 5, true⟩]

/-- C4 counterexample: a successful ELITE 50kg×5 event is worth 425 XP,
not 350 as the claim states (the spec's example dropped the 25-point
volume bonus: `int((100 + min(100, 250/10)) * 3.0 + 50) = 425`). -/
theorem calculate_workout_xp_elite_cex :
    calculate_workout_xp .ELITE 50 5 true ≠ 350 := by
  norm_num [calculate_workout_xp, xpMultiplier, pytrunc]

/-- C4 (amended): the XP for a single successful workout event with
difficulty snapshot ELITE, weight 50 kg and 5 reps is exactly 425, per
the formula xp = floor((base + volume_bonus) * difficulty_multiplier +
success_bonus) with base 100, ELITE multiplier 3.0,
volume_bonus = min(100, weight*reps/10) = 25, success_bonus = 50. -/
theorem calculate_workout_xp_elite_value :
    calculate_workout_xp .ELITE 50 5 true = 425 := by
  norm_num [calculate_workout_xp, xpMultiplier, pytrunc]

/-- C5: a single invocation of the progression update leaves the tier
unchanged or moves it exactly one step along
BEGINNER < INTERMEDIATE < ADVANCED < ELITE: the result is the previous
tier, its immediate successor, or its immediate predecessor, so the tier
never skips a step, never rises above ELITE and never falls below
BEGINNER. -/
theorem updateMovementProgression_adjacent (session_history : List Bool)
    (threshold : ℕ) (current : DifficultyLevel) :
    updateMovementProgression session_history threshold current = current ∨
    dlIndex (updateMovementProgression session_history threshold current) =
      dlIndex current + 1 ∨
    dlIndex current =
      dlIndex (updateMovementProgression session_history threshold current) + 1 := by
  unfold updateMovementProgression
  cases current <;>
    simp only [difficultyList, dlIndex] <;>
    split_ifs <;>
    simp [dlIndex]

/-- C1 counterexample: with the default threshold 3, a full window holding
exactly 1 success (strictly fewer than half of 3) does NOT demote an
INTERMEDIATE movement, because the source guard is
`successes < threshold // 2`, i.e. `successes < 1`. -/
theorem updateMovementProgression_half_cex :
    updateMovementProgression [true, false, false] 3 .INTERMEDIATE =
      .INTERMEDIATE ∧
    updateMovementProgression [true, false, false] 3 .INTERMEDIATE ≠
      .BEGINNER ∧
    2 * (([true, false, false].take 3).filter id).length < 3 := by
  refine ⟨by decide, by decide, by decide⟩

/-- C1 (amended): after a new event is stored, with `recent` the most recent
`progression_threshold` events: fewer than the threshold available events
leaves the tier unchanged; an all-successful full window promotes one step
unless the tier is ELITE (then unchanged); a full window with strictly
fewer than `progression_threshold // 2` (floor division, NOT half)
successes demotes one step unless the tier is BEGINNER (then unchanged);
every other full window — including one with exactly half, or any count in
`[threshold // 2, threshold)` — leaves the tier unchanged. -/
theorem updateMovementProgression_spec (session_history : List Bool)
    (threshold : ℕ) (current : DifficultyLevel) :
    ((session_history.take threshold).length < threshold →
      updateMovementProgression session_history threshold current = current) ∧
    (threshold ≤ (session_history.take threshold).length →
      ((session_history.take threshold).filter id).length = threshold →
      current ≠ .ELITE →
      dlIndex (updateMovementProgression session_history threshold current) =
        dlIndex current + 1) ∧
    (threshold ≤ (session_history.take threshold).length →
      ((session_history.take threshold).filter id).length = threshold →
      current = .ELITE →
      updateMovementProgression session_history threshold current = current) ∧
    (threshold ≤ (session_history.take threshold).length →
      ((session_history.take threshold).filter id).length < threshold / 2 →
      current ≠ .BEGINNER →
      dlIndex (updateMovementProgression session_history threshold current) + 1 =
        dlIndex current) ∧
    (threshold ≤ (session_history.take threshold).length →
      ((session_history.take threshold).filter id).length < threshold / 2 →
      current = .BEGINNER →
      updateMovementProgression session_history threshold current = current) ∧
    (threshold ≤ (session_history.take threshold).length →
      ((session_history.take threshold).filter id).length ≠ threshold →
      ¬ ((session_history.take threshold).filter id).length < threshold / 2 →
      updateMovementProgression session_history threshold current = current) := by
  refine ⟨?_, ?_, ?_, ?_, ?_, ?_⟩ <;>
    intro h1 <;>
    (try intro h2 h3) <;>
    simp only [updateMovementProgression] <;>
    split_ifs <;>
    first
      | rfl
      | omega
      | (cases current <;> simp_all [dlIndex, difficultyList])

/-- C1 witness: three consecutive successes at threshold 3 promote a
BEGINNER movement one step (to index 1, INTERMEDIATE). -/
theorem updateMovementProgression_spec_witness :
    dlIndex (updateMovementProgression [true, true, true] 3 .BEGINNER) =
      dlIndex DifficultyLevel.BEGINNER + 1 :=
  (updateMovementProgression_spec [true, true, true] 3 .BEGINNER).2.1
    (by decide) (by decide) (by decide)

/-- Helper: the level loop never returns less than its accumulator, provided
the remaining level numbers are all at least the accumulator and listed in
non-decreasing order. -/
theorem levelLoop_ge (total_xp : ℕ) :
    ∀ (ls : List ℕ) (current : ℕ), (∀ x ∈ ls, current ≤ x) →
      ls.Pairwise (· ≤ ·) → current ≤ levelLoop total_xp ls current := by
  intro ls
  induction ls with
  | nil =>
    intro current _ _
    exact le_rfl
  | cons l ls ih =>
    intro current hmem hpw
    have hpw' := List.pairwise_cons.1 hpw
    simp only [levelLoop]
    split_ifs with h
    · exact le_trans (hmem l (by simp)) (ih l (fun x hx => hpw'.1 x hx) hpw'.2)
    · exact le_rfl

/-- Helper: the level loop result is monotone in the XP argument, for a
non-decreasing list of level numbers that dominate the accumulator. -/
theorem levelLoop_mono {xp1 xp2 : ℕ} (hx : xp1 ≤ xp2) :
    ∀ (ls : List ℕ) (current : ℕ), (∀ x ∈ ls, current ≤ x) →
      ls.Pairwise (· ≤ ·) →
      levelLoop xp1 ls current ≤ levelLoop xp2 ls current := by
  intro ls
  induction ls with
  | nil =>
    intro current _ _
    exact le_rfl
  | cons l ls ih =>
    intro current hmem hpw
    have hpw' := List.pairwise_cons.1 hpw
    simp only [levelLoop]
    by_cases h1 : xpRequired l ≤ xp1
    · rw [if_pos h1, if_pos (le_trans h1 hx)]
      exact ih l (fun x hx' => hpw'.1 x hx') hpw'.2
    · rw [if_neg h1]
      by_cases h2 : xpRequired l ≤ xp2
      · rw [if_pos h2]
        exact le_trans (hmem l (by simp))
          (levelLoop_ge xp2 ls l (fun x hx' => hpw'.1 x hx') hpw'.2)
      · rw [if_neg h2]

/-- C10: `get_current_level` always returns a level of at least 1; for any
total XP strictly below 1000 (the requirement of level 1 itself,
`xpRequired 1 = 1000`) it returns level 1 even though no threshold is met;
and the returned level number is monotone non-decreasing in total XP. -/
theorem get_current_level_spec (xp1 xp2 : ℕ) (hx : xp1 ≤ xp2) :
    1 ≤ get_current_level xp1 ∧
    (xp1 < 1000 → get_current_level xp1 = 1) ∧
    get_current_level xp1 ≤ get_current_level xp2 := by
  have hmem : ∀ x ∈ levelNumbers, 1 ≤ x := by decide
  have hpw : levelNumbers.Pairwise (· ≤ ·) := by decide
  refine ⟨levelLoop_ge xp1 levelNumbers 1 hmem hpw, ?_,
    levelLoop_mono hx levelNumbers 1 hmem hpw⟩
  intro hlt
  show levelLoop xp1 levelNumbers 1 = 1
  have hlist : levelNumbers = 1 :: List.range' 2 29 := by decide
  have hreq : xpRequired 1 = 1000 := by decide
  rw [hlist]
  simp only [levelLoop]
  rw [if_neg (by omega)]

/-- C10 witness: 500 XP yields level 1 (no threshold reached), and stays
at or below the level reached with 1500 XP. -/
theorem get_current_level_spec_witness :
    1 ≤ get_current_level 500 ∧ get_current_level 500 = 1 ∧
    get_current_level 500 ≤ get_current_level 1500 :=
  ⟨(get_current_level_spec 500 1500 (by decide)).1,
   (get_current_level_spec 500 1500 (by decide)).2.1 (by decide),
   (get_current_level_spec 500 1500 (by decide)).2.2⟩

/-- C6: awarding is idempotent — running `_award_achievement` a second time
for the same (achievement_id, user_id, movement_name) triple leaves the
table exactly as the first run left it (no new row, no error), and after
one award the table holds `max(previous count, 1)` rows for the triple, so
a table that never had a duplicate keeps at most one row per triple. -/
theorem award_achievement_idempotent (table : List EarnedAchievement)
    (achievement_id user_id : ℕ) (movement_name : Option String)
    (t1 t2 : ℚ) :
    award_achievement
        (award_achievement table achievement_id user_id movement_name t1)
        achievement_id user_id movement_name t2 =
      award_achievement table achievement_id user_id movement_name t1 ∧
    (award_achievement table achievement_id user_id movement_name t1).countP
        (matchesTriple achievement_id user_id movement_name) =
      max (table.countP (matchesTriple achievement_id user_id movement_name)) 1 := by
  have hm : matchesTriple achievement_id user_id movement_name
      ⟨achievement_id, user_id, movement_name, t1⟩ = true := by
    simp [matchesTriple]
  by_cases h : table.filter (matchesTriple achievement_id user_id movement_name) = []
  · have hc0 : table.countP (matchesTriple achievement_id user_id movement_name) = 0 := by
      rw [List.countP_eq_length_filter, h]
      rfl
    have h1 : award_achievement table achievement_id user_id movement_name t1 =
        table ++ [⟨achievement_id, user_id, movement_name, t1⟩] := by
      simp only [award_achievement]
      rw [h]
      rfl
    have hfilt : (table ++
          [(⟨achievement_id, user_id, movement_name, t1⟩ : EarnedAchievement)]).filter
          (matchesTriple achievement_id user_id movement_name) =
        [⟨achievement_id, user_id, movement_name, t1⟩] := by
      rw [List.filter_append, h, List.nil_append, List.filter_cons_of_pos hm]
      rfl
    have h2 : award_achievement
          (table ++ [⟨achievement_id, user_id, movement_name, t1⟩])
          achievement_id user_id movement_name t2 =
        table ++ [⟨achievement_id, user_id, movement_name, t1⟩] := by
      simp only [award_achievement]
      rw [hfilt]
      rfl
    constructor
    · rw [h1, h2]
    · rw [h1, List.countP_eq_length_filter, hfilt, hc0]
      rfl
  · have hc1 : 1 ≤ table.countP (matchesTriple achievement_id user_id movement_name) := by
      rw [List.countP_eq_length_filter]
      cases hf : table.filter (matchesTriple achievement_id user_id movement_name) with
      | nil => exact absurd hf h
      | cons a l => simp
    have hsame : ∀ t : ℚ,
        award_achievement table achievement_id user_id movement_name t = table := by
      intro t
      simp only [award_achievement]
      cases hf : table.filter (matchesTriple achievement_id user_id movement_name) with
      | nil => exact absurd hf h
      | cons a l => rfl
    rw [hsame t1, hsame t2]
    exact ⟨rfl, (max_eq_left hc1).symm⟩

/-- Banker's rounding never moves a value down by more than 1/2. -/
theorem le_pyround (q : ℚ) : q - 1/2 ≤ (pyround q : ℚ) := by
  simp only [pyround]
  have hf1 : ((⌊q⌋ : ℤ) : ℚ) ≤ q := Int.floor_le q
  have hf2 : q < (⌊q⌋ : ℚ) + 1 := Int.lt_floor_add_one q
  split_ifs <;> push_cast <;> linarith

/-- Banker's rounding never moves a value up by more than 1/2. -/
theorem pyround_le (q : ℚ) : (pyround q : ℚ) ≤ q + 1/2 := by
  simp only [pyround]
  have hf1 : ((⌊q⌋ : ℤ) : ℚ) ≤ q := Int.floor_le q
  have hf2 : q < (⌊q⌋ : ℚ) + 1 := Int.lt_floor_add_one q
  split_ifs <;> push_cast <;> linarith

/-- Rounding a value of `[1, 10]` to one decimal stays within `[1, 10]`. -/
theorem round1_bounds {q : ℚ} (h1 : 1 ≤ q) (h2 : q ≤ 10) :
    1 ≤ (pyround (q * 10) : ℚ) / 10 ∧ (pyround (q * 10) : ℚ) / 10 ≤ 10 := by
  have hlo := le_pyround (q * 10)
  have hhi := pyround_le (q * 10)
  have hz1 : (10 : ℚ) ≤ (pyround (q * 10) : ℚ) := by
    have h9 : (9 : ℤ) < pyround (q * 10) := by
      exact_mod_cast show (9 : ℚ) < (pyround (q * 10) : ℚ) by linarith
    exact_mod_cast show (10 : ℤ) ≤ pyround (q * 10) by omega
  have hz2 : ((pyround (q * 10) : ℚ)) ≤ 100 := by
    have hq : pyround (q * 10) < (101 : ℤ) := by
      exact_mod_cast show (pyround (q * 10) : ℚ) < 101 by linarith
    exact_mod_cast show pyround (q * 10) ≤ (100 : ℤ) by omega
  constructor <;> linarith

/-- C7: for a user and date with no workout events on that exact calendar
date, `calculate_strain_score` returns strain_score exactly 0 with the
no-training-data message; with at least one event that day, the returned
strain_score lies in the clamped range [1, 10], so 0 is distinguishable
from any computed low strain. -/
theorem calculate_strain_score_spec (db : List WorkoutRecord) (user_id : ℕ)
    (now : ℚ) :
    ((∀ w ∈ db, ¬ (w.user_id = user_id ∧ w.date = ⌊now⌋)) →
      (calculate_strain_score db user_id now).strain_score = 0 ∧
      (calculate_strain_score db user_id now).message =
        "No training data for this date") ∧
    ((∃ w ∈ db, w.user_id = user_id ∧ w.date = ⌊now⌋) →
      1 ≤ (calculate_strain_score db user_id now).strain_score ∧
      (calculate_strain_score db user_id now).strain_score ≤ 10) := by
  constructor
  · intro hnone
    have hempty : dailyWorkouts db user_id now = [] := by
      apply List.filter_eq_nil_iff.2
      intro w hw
      simpa using hnone w hw
    simp [calculate_strain_score, hempty]
  · rintro ⟨w, hw, hcond⟩
    have hmem : w ∈ dailyWorkouts db user_id now :=
      List.mem_filter.2 ⟨hw, by simpa using hcond⟩
    have hne : dailyWorkouts db user_id now ≠ [] := List.ne_nil_of_mem hmem
    have hb := round1_bounds
      (q := min (max (calculate_volume_score (dailyWorkouts db user_id now) * (4/10) +
        calculate_intensity_score db (dailyWorkouts db user_id now) * (3/10) +
        calculate_frequency_score db user_id now * (3/10)) 1) 10)
      (le_min (le_max_right _ _) (by norm_num)) (min_le_right _ _)
    simpa [calculate_strain_score, hne] using hb

/-- C7 witness: a day with one 100kg×5 event scores within [1, 10]; an
empty history scores exactly 0 with the no-data message. -/
theorem calculate_strain_score_spec_witness :
    (1 ≤ (calculate_strain_score [⟨1, 1, 10, 100, 5⟩] 1 10).strain_score ∧
      (calculate_strain_score [⟨1, 1, 10, 100, 5⟩] 1 10).strain_score ≤ 10) ∧
    ((calculate_strain_score [] 1 10).strain_score = 0 ∧
      (calculate_strain_score [] 1 10).message =
        "No training data for this date") :=
  ⟨(calculate_strain_score_spec [⟨1, 1, 10, 100, 5⟩] 1 10).2
      ⟨⟨1, 1, 10, 100, 5⟩, by simp, by norm_num⟩,
   (calculate_strain_score_spec [] 1 10).1 (by simp)⟩

/-- C3 counterexample: the time score is NOT monotone in elapsed hours —
at 23 hours it is 115/12 ≈ 9.58, at 24 hours it drops to 5, although
23 ≤ 24. -/
theorem time_score_of_hours_cex :
    (23 : ℚ) ≤ 24 ∧ time_score_of_hours 24 < time_score_of_hours 23 := by
  constructor
  · norm_num
  · norm_num [time_score_of_hours]

/-- C3 (amended): the time score is monotone non-decreasing in elapsed
hours within each segment — as long as the pair does not straddle the
24-hour boundary (h2 < 24, or 24 ≤ h1) — and is fixed at 10 for every
h ≥ 48; across the 24-hour boundary it drops (from values approaching 10
down to 5), so global monotonicity fails. -/
theorem time_score_of_hours_spec (h1 h2 : ℚ) (hle : h1 ≤ h2)
    (hseg : h2 < 24 ∨ 24 ≤ h1) :
    time_score_of_hours h1 ≤ time_score_of_hours h2 ∧
    (48 ≤ h1 → time_score_of_hours h1 = 10) := by
  constructor
  · unfold time_score_of_hours
    rcases hseg with hs | hs
    · rw [if_pos (lt_of_le_of_lt hle hs), if_pos hs]
      exact max_le_max le_rfl (by linarith)
    · rw [if_neg (show ¬ h1 < 24 by linarith), if_neg (show ¬ h2 < 24 by linarith)]
      by_cases hb1 : h1 < 48
      · rw [if_pos hb1]
        by_cases hb2 : h2 < 48
        · rw [if_pos hb2]
          exact min_le_min le_rfl (by linarith)
        · rw [if_neg hb2]
          exact min_le_left _ _
      · rw [if_neg hb1, if_neg (show ¬ h2 < 48 by linarith)]
  · intro h48
    unfold time_score_of_hours
    rw [if_neg (show ¬ h1 < 24 by linarith), if_neg (show ¬ h1 < 48 by linarith)]

/-- C3 witness: 50 and 60 hours lie in the saturated segment; the score is
monotone there and equals 10 at 50 hours. -/
theorem time_score_of_hours_spec_witness :
    time_score_of_hours 50 ≤ time_score_of_hours 60 ∧
    time_score_of_hours 50 = 10 :=
  ⟨(time_score_of_hours_spec 50 60 (by norm_num) (Or.inr (by norm_num))).1,
   (time_score_of_hours_spec 50 60 (by norm_num) (Or.inr (by norm_num))).2
     (by norm_num)⟩

/-- C8: when no workout events of the user fall in the 7-day window
strictly before the date, `calculate_recovery_score` returns exactly 10
with the fully-recovered message. -/
theorem calculate_recovery_score_spec (db : List WorkoutRecord)
    (user_id : ℕ) (now : ℚ)
    (hnone : ∀ w ∈ db, w.user_id = user_id →
      ¬ (now - 7 ≤ (w.date : ℚ) ∧ (w.date : ℚ) < now)) :
    calculate_recovery_score db user_id now =
      { recovery_score := 10,
        message := "Fully recovered - No recent training load" } := by
  have hfilt : db.filter (fun w =>
      decide (w.user_id = user_id ∧ now - 7 ≤ (w.date : ℚ) ∧
        (w.date : ℚ) < now)) = [] := by
    apply List.filter_eq_nil_iff.2
    intro w hw
    simp only [decide_eq_true_eq, not_and]
    intro ha hb hc
    exact hnone w hw ha ⟨hb, hc⟩
  have hempty : recentWorkouts db user_id now = [] := by
    rw [recentWorkouts, hfilt]
    rfl
  simp [calculate_recovery_score, hempty]

/-- C8 witness: a single event 20 days old is outside the 7-day window, so
the recovery score is 10. -/
theorem calculate_recovery_score_spec_witness :
    calculate_recovery_score [⟨1, 1, 0, 100, 5⟩] 1 20 =
      { recovery_score := 10,
        message := "Fully recovered - No recent training load" } :=
  calculate_recovery_score_spec [⟨1, 1, 0, 100, 5⟩] 1 20 (by
    intro w hw ha
    simp only [List.mem_singleton] at hw
    subst hw
    norm_num)

/-- C9: with fewer than 5 data points the forecaster returns no numeric
prediction, confidence 0 and the not-enough-data message (and, being a
total function, raises no error). -/
theorem predict_pr_insufficient (data : List HistoryRow)
    (h : data.length < 5) :
    (predict_pr data).prediction = none ∧
    (predict_pr data).confidence = 0 ∧
    (predict_pr data).message =
      "Not enough data for prediction. Need at least 5 workouts." := by
  have hp : prepare_data data = none := by
    simp [prepare_data, min_data_points, h]
  simp [predict_pr, hp]

/-- C9 witness: the empty history yields no prediction, confidence 0 and
the not-enough-data message. -/
theorem predict_pr_insufficient_witness :
    (predict_pr []).prediction = none ∧
    (predict_pr []).confidence = 0 ∧
    (predict_pr []).message =
      "Not enough data for prediction. Need at least 5 workouts." :=
  predict_pr_insufficient [] (by simp)

/-- Evaluation of the forecaster on `predData`: the returned prediction is
115.5 kg. -/
theorem predData_prediction :
    (predict_pr predData).prediction = some (231/2) := by
  have hxs : xs predData = [0, 1, 2, 3, 4] := by
    norm_num [xs, firstDate, predData, min_def]
  have hys : ys predData = [60, 70, 80, 90, 1003/10] := by
    norm_num [ys, predData]
  have hlen : predData.length = 5 := by norm_num [predData]
  have hxbar : xbar predData = 2 := by
    norm_num [xbar, hxs, hlen]
  have hybar : ybar predData = 4003/50 := by
    norm_num [ybar, hys, hlen]
  have hSxx : olsSxx predData = 10 := by
    norm_num [olsSxx, hxs, hxbar]
  have hSxy : olsSxy predData = 503/5 := by
    norm_num [olsSxy, hxs, hys, hxbar, hybar]
  have hslope : olsSlope predData = 503/50 := by
    norm_num [olsSlope, hSxx, hSxy]
  have hintercept : olsIntercept predData = 2997/50 := by
    norm_num [olsIntercept, hybar, hslope, hxbar]
  have hlast : lastDay predData = 4 := by
    norm_num [lastDay, listMaxD, hxs, max_def]
  have hraw : predictedRaw predData = 20099/50 := by
    norm_num [predictedRaw, hintercept, hslope, hlast, prediction_days]
  have hmaxw : maxWeight predData = 1003/10 := by
    norm_num [maxWeight, listMaxD, hys, max_def]
  have hclamped : predictedClamped predData = 23069/200 := by
    norm_num [predictedClamped, hraw, hmaxw, maxRealisticImprovement, min_def]
  have hfl : ⌊(23069/100 : ℚ)⌋ = 230 := by
    norm_num [Int.floor_eq_iff]
  have hpy : pyround (23069/100 : ℚ) = 231 := by
    simp only [pyround, hfl]
    norm_num
  have hrounded : predictedRounded predData = 231/2 := by
    have h2 : predictedClamped predData * 2 = 23069/100 := by
      rw [hclamped]
      norm_num
    rw [predictedRounded, h2, hpy]
    norm_num
  have hpre : prepare_data predData = some (xs predData, ys predData) := by
    simp [prepare_data, hlen, min_data_points]
  have hXlen : ¬ (xs predData).length < min_data_points := by
    simp [hxs, min_data_points]
  simp only [predict_pr, hpre, hXlen, if_false, ite_false]
  simp [apply_ite PRResult.prediction, hrounded]

/-- C2 counterexample: on `predData` the returned prediction 115.5 kg
strictly exceeds 1.15 × current_pr = 1.15 × 100.3 = 115.345 kg — the
rounding to the nearest 0.5 kg happens after the 15% clamp and can push
the value past it. -/
theorem predict_pr_cap_cex :
    (predict_pr predData).prediction = some (231/2) ∧
    maxWeight predData = 1003/10 ∧
    ¬ ((231/2 : ℚ) ≤ (23/20) * (1003/10)) := by
  refine ⟨predData_prediction, ?_, by norm_num⟩
  norm_num [maxWeight, listMaxD, ys, predData, max_def]

/-- C2 (amended): for every history, any numeric prediction returned by
`predict_pr` is at most 1.15 × current_pr + 0.25 kg (the quarter-kilogram
slack is what post-clamp rounding to the nearest 0.5 can add) and is
always an integer multiple of 0.5. -/
theorem predict_pr_bounds (data : List HistoryRow) (p : ℚ)
    (hp : (predict_pr data).prediction = some p) :
    p ≤ (23/20) * maxWeight data + 1/4 ∧ ∃ k : ℤ, p = (k : ℚ) / 2 := by
  have hval : p = predictedRounded data := by
    unfold predict_pr at hp
    cases hpd : prepare_data data with
    | none =>
      rw [hpd] at hp
      simp at hp
    | some Xy =>
      rw [hpd] at hp
      obtain ⟨X, y⟩ := Xy
      dsimp only at hp
      by_cases hlen : X.length < min_data_points
      · rw [if_pos hlen] at hp
        simp at hp
      · rw [if_neg hlen] at hp
        by_cases hle : predictedRounded data ≤ maxWeight data
        · rw [if_pos hle] at hp
          simpa using hp.symm
        · rw [if_neg hle] at hp
          simpa using hp.symm
  subst hval
  constructor
  · have h1 := pyround_le (predictedClamped data * 2)
    have h2 : predictedClamped data ≤
        maxWeight data * (1 + maxRealisticImprovement) :=
      min_le_right _ _
    rw [maxRealisticImprovement] at h2
    rw [predictedRounded]
    linarith
  · exact ⟨pyround (predictedClamped data * 2), rfl⟩

/-- C2 witness: the amended bound and half-integrality, instantiated at the
concrete history `predData` whose prediction is 115.5. -/
theorem predict_pr_bounds_witness :
    (231/2 : ℚ) ≤ (23/20) * maxWeight predData + 1/4 ∧
    ∃ k : ℤ, (231/2 : ℚ) = (k : ℚ) / 2 :=
  predict_pr_bounds predData (231/2) predData_prediction
